import Mathlib

/-!
Shallow embedding of the checkpoint save/restore logic of the
"Saving and Loading Models" notebook.  The notebook builds a fully
connected `fc_model.Network(input_size, output_size, hidden_layers)`,
saves a checkpoint record bundling the architecture with the model's
`state_dict`, and restores it with `load_checkpoint`, which rebuilds a
fresh network and calls `model.load_state_dict` (strict mode).

Parameter tensors are modelled as a dimension list (`shape`) together
with the stored contents (`data`); save and load only copy tensors and
compare shapes, so bit-for-bit identity of stored values is equality of
the `Tensor` structure.  The framework's random parameter
initialisation is modelled by an explicit argument `ini : Init`
supplying the freshly initialised contents of each parameter slot; its
shapes are fixed by the layer widths exactly as the framework fixes
them.  The dropout module carries no parameters and does not appear in
the state dict, so it is omitted.
-/

namespace FcModel

/-- A stored parameter tensor: its dimension list and its stored contents. -/
structure Tensor where
  shape : List Nat
  data : List Int
deriving DecidableEq

/-- A fully connected layer `nn.Linear(in_features, out_features)` with its
weight matrix (shape `[out_features, in_features]`) and bias vector
(shape `[out_features]`). -/
structure Linear where
  in_features : Nat
  out_features : Nat
  weight : Tensor
  bias : Tensor
deriving DecidableEq

/-- The network of the notebook: a list of hidden `Linear` layers and the
final `output` layer (the parameterless dropout module is omitted). -/
structure Network where
  hidden_layers : List Linear
  output : Linear
deriving DecidableEq

/-- Identifier of a parameter slot.  In the source these are the state-dict
strings: `Key.hidden i true` stands for `hidden_layers.{i}.weight`,
`Key.hidden i false` for `hidden_layers.{i}.bias`, `Key.out true` for
`output.weight` and `Key.out false` for `output.bias`; that naming scheme
is injective, which the inductive representation makes explicit.
`keyName` recovers the source string. -/
inductive Key where
  | hidden (i : Nat) (w : Bool)
  | out (w : Bool)
deriving DecidableEq

/-- The state-dict string a `Key` stands for. -/
def keyName : Key → String
  | Key.hidden i true => "hidden_layers." ++ toString i ++ ".weight"
  | Key.hidden i false => "hidden_layers." ++ toString i ++ ".bias"
  | Key.out true => "output.weight"
  | Key.out false => "output.bias"

/-- Python dictionary lookup (first entry with the given key). -/
def lookupBy {α β : Type} [DecidableEq α] (k : α) : List (α × β) → Option β
  | [] => none
  | p :: ps => if k = p.1 then some p.2 else lookupBy k ps

/-- Rendering of a dimension list as the framework renders `torch.Size`. -/
def torchSize (s : List Nat) : String :=
  "torch.Size([" ++ String.intercalate ", " (s.map toString) ++ "])"

/-- The per-slot size-mismatch report of strict `load_state_dict`
(source lines 293-301): it names the slot, the stored (checkpoint)
dimensions and the current model's dimensions. -/
def sizeMismatchMsg (k : Key) (stored cur : List Nat) : String :=
  "size mismatch for " ++ keyName k ++ ": copying a param with shape " ++
    torchSize stored ++ " from checkpoint, the shape in current model is " ++
    torchSize cur ++ "."

/-- Report for a model parameter slot absent from the loaded state dict
(strict mode missing key). -/
def missingKeyMsg (k : Key) : String :=
  "Missing key(s) in state_dict: " ++ keyName k ++ "."

/-- Report for a state-dict entry with no matching model slot
(strict mode unexpected key). -/
def unexpectedKeyMsg (k : Key) : String :=
  "Unexpected key(s) in state_dict: " ++ keyName k ++ "."

/-- Contents supplied for freshly initialised parameter slots: slot index
and kind (`true` = weight, `false` = bias) to stored contents.  This
models the framework's random initialisation; shapes are not under its
control. -/
def Init : Type := Nat → Bool → List Int

/-- Modelled from the spec: the hidden `ModuleList` of
`fc_model.Network` (the class itself is imported by the notebook and not
part of the provided sources).  Per the spec's data model and the
architecture printed in the source (lines 189-203), hidden layer `i` is
`Linear(previous_width, hidden_layers[i])` with `previous_width` equal
to `input_size` for `i = 0` and to `hidden_layers[i-1]` afterwards.
`prev` is the width entering the first remaining layer and `j` the index
of that layer. -/
def buildHidden (prev : Nat) (hs : List Nat) (j : Nat) (ini : Init) : List Linear :=
  match hs with
  | [] => []
  | h :: t =>
      { in_features := prev, out_features := h,
        weight := { shape := [h, prev], data := ini j true },
        bias := { shape := [h], data := ini j false } } :: buildHidden h t (j + 1) ini

/-- Width entering the output layer: the last hidden width
(`hidden_layers[-1]`), or `input_size` for an empty hidden list. -/
def lastWidth (input_size : Nat) (hidden : List Nat) : Nat :=
  hidden.getLast?.getD input_size

/-- Modelled from the spec: `fc_model.Network(input_size, output_size,
hidden_layers)` (imported by the notebook, not among the provided
sources).  Hidden layers follow the width chain starting at
`input_size`; the output layer is `Linear(hidden_layers[-1],
output_size)`.  `ini` supplies the fresh parameter contents. -/
def buildNetwork (input_size output_size : Nat) (hidden : List Nat) (ini : Init) : Network :=
  { hidden_layers := buildHidden input_size hidden 0 ini,
    output :=
      { in_features := lastWidth input_size hidden, out_features := output_size,
        weight := { shape := [output_size, lastWidth input_size hidden],
                    data := ini hidden.length true },
        bias := { shape := [output_size], data := ini hidden.length false } } }

/-- The hidden entries of `model.state_dict()`, starting at slot index `i`:
for each layer, its weight then its bias, in layer order. -/
def stateDictHidden (i : Nat) : List Linear → List (Key × Tensor)
  | [] => []
  | l :: ls =>
      (Key.hidden i true, l.weight) :: (Key.hidden i false, l.bias) ::
        stateDictHidden (i + 1) ls

/-- `model.state_dict()`: all parameter slots keyed by identifier, hidden
layers first (weight then bias per layer), then the output layer
(source lines 201-203 list exactly these keys in this order). -/
def Network.state_dict (m : Network) : List (Key × Tensor) :=
  stateDictHidden 0 m.hidden_layers ++
    [(Key.out true, m.output.weight), (Key.out false, m.output.bias)]

/-- The identifiers of a model's parameter slots. -/
def modelKeys (m : Network) : List Key := m.state_dict.map Prod.fst

/-- Loading of one parameter slot by strict `load_state_dict`: look the
slot's identifier up in the given state dict; copy the stored tensor when
its dimensions agree with the current slot, otherwise keep the current
tensor and record a size-mismatch report; record a missing-key report
when the identifier is absent. -/
def loadTensor (k : Key) (cur : Tensor) (sd : List (Key × Tensor)) : Tensor × List String :=
  match lookupBy k sd with
  | some t => if t.shape = cur.shape then (t, []) else (cur, [sizeMismatchMsg k t.shape cur.shape])
  | none => (cur, [missingKeyMsg k])

/-- Loading of one `Linear` module's two slots (weight, then bias). -/
def loadLinear (wk bk : Key) (l : Linear) (sd : List (Key × Tensor)) : Linear × List String :=
  ({ l with weight := (loadTensor wk l.weight sd).1, bias := (loadTensor bk l.bias sd).1 },
    (loadTensor wk l.weight sd).2 ++ (loadTensor bk l.bias sd).2)

/-- Loading of the hidden layers starting at slot index `i`. -/
def loadHidden (i : Nat) (ls : List Linear) (sd : List (Key × Tensor)) :
    List Linear × List String :=
  match ls with
  | [] => ([], [])
  | l :: rest =>
      ((loadLinear (Key.hidden i true) (Key.hidden i false) l sd).1 ::
          (loadHidden (i + 1) rest sd).1,
        (loadLinear (Key.hidden i true) (Key.hidden i false) l sd).2 ++
          (loadHidden (i + 1) rest sd).2)

/-- The strict-mode unexpected-key reports: one per state-dict entry whose
identifier matches no slot of the model. -/
def unexpectedKeyErrs (m : Network) (sd : List (Key × Tensor)) : List String :=
  (sd.map Prod.fst).filterMap
    (fun k => if k ∈ modelKeys m then none else some (unexpectedKeyMsg k))

/-- `model.load_state_dict(sd)` in strict mode, as in the source
(lines 293-309): every slot of the model is processed in order, matching
stored tensors are copied in place, shape mismatches and missing keys
are recorded per slot, unexpected keys are recorded, and the call raises
`RuntimeError` exactly when the collected report list is nonempty.  The
returned pair is the model as left after the call (Python mutates it in
place) together with the collected reports; the caller raises on a
nonempty report list. -/
def Network.load_state_dict (m : Network) (sd : List (Key × Tensor)) :
    Network × List String :=
  ({ hidden_layers := (loadHidden 0 m.hidden_layers sd).1,
     output := (loadLinear (Key.out true) (Key.out false) m.output sd).1 },
    unexpectedKeyErrs m sd ++ (loadHidden 0 m.hidden_layers sd).2 ++
      (loadLinear (Key.out true) (Key.out false) m.output sd).2)

/-- The checkpoint record of the writer cell: the three architecture
fields and the saved state dict. -/
structure Checkpoint where
  input_size : Nat
  output_size : Nat
  hidden_layers : List Nat
  state_dict : List (Key × Tensor)
deriving DecidableEq

/-- The checkpoint writer cell (source lines 325-330): it hardcodes
`input_size` as `784` and `output_size` as `10`, reads
`hidden_layers` as `[each.out_features for each in model.hidden_layers]`
and bundles `model.state_dict()`. -/
def checkpoint (model : Network) : Checkpoint :=
  { input_size := 784,
    output_size := 10,
    hidden_layers := model.hidden_layers.map Linear.out_features,
    state_dict := model.state_dict }

/-- The writer cell as a cell of the program: it produces the record
written by `torch.save` and assigns nothing to `model`, whose state
after the cell is the second component. -/
def saveCell (model : Network) : Checkpoint × Network :=
  (checkpoint model, model)

/-- The freshly constructed model of `load_checkpoint` (source line 348):
`fc_model.Network` applied to the three shape fields of the record. -/
def freshModel (cp : Checkpoint) (ini : Init) : Network :=
  buildNetwork cp.input_size cp.output_size cp.hidden_layers ini

/-- `load_checkpoint` (source lines 346-353): rebuild a network from the
three shape fields, load the saved state dict into it, and return the
model; the strict `load_state_dict` call raises when its report list is
nonempty, which propagates to the caller as the error case. -/
def load_checkpoint (cp : Checkpoint) (ini : Init) : Except (List String) Network :=
  if ((freshModel cp ini).load_state_dict cp.state_dict).2 = [] then
    Except.ok ((freshModel cp ini).load_state_dict cp.state_dict).1
  else
    Except.error ((freshModel cp ini).load_state_dict cp.state_dict).2

/-- The report list `load_checkpoint` fails with (empty on success). -/
def loadCheckpointErrs (cp : Checkpoint) (ini : Init) : List String :=
  ((freshModel cp ini).load_state_dict cp.state_dict).2

/-- A value stored in the raw record dictionary read back by
`torch.load`: a size, a width list, or a state dict. -/
inductive RecEntry where
  | nat (n : Nat)
  | widths (ns : List Nat)
  | dict (sd : List (Key × Tensor))
deriving DecidableEq

/-- The raw record dictionary as read back by `torch.load`: arbitrary
string-keyed fields. -/
def RawRecord : Type := List (String × RecEntry)

/-- Field access `record[k]` expecting a size. -/
def readNat (r : RawRecord) (k : String) : Option Nat :=
  match lookupBy k r with
  | some (RecEntry.nat n) => some n
  | _ => none

/-- Field access `record[k]` expecting a width list. -/
def readWidths (r : RawRecord) (k : String) : Option (List Nat) :=
  match lookupBy k r with
  | some (RecEntry.widths ns) => some ns
  | _ => none

/-- Field access `record[k]` expecting a state dict. -/
def readDict (r : RawRecord) (k : String) : Option (List (Key × Tensor)) :=
  match lookupBy k r with
  | some (RecEntry.dict sd) => some sd
  | _ => none

/-- `load_checkpoint` run on a raw record dictionary: the body indexes
exactly the four fields `input_size`, `output_size`, `hidden_layers` and
`state_dict`; a missing (or wrongly typed) field is the Python
`KeyError` path, `none` here, and anything else in the dictionary is
never consulted. -/
def load_checkpoint_file (r : RawRecord) (ini : Init) :
    Option (Except (List String) Network) :=
  match readNat r "input_size" with
  | none => none
  | some i =>
      match readNat r "output_size" with
      | none => none
      | some o =>
          match readWidths r "hidden_layers" with
          | none => none
          | some hs =>
              match readDict r "state_dict" with
              | none => none
              | some sd =>
                  some (load_checkpoint { input_size := i, output_size := o,
                                          hidden_layers := hs, state_dict := sd } ini)

/-- The list of hidden output widths of a model. -/
def hiddenWidths (m : Network) : List Nat := m.hidden_layers.map Linear.out_features

/-- The `(in_features, out_features)` pairs of the hidden chain determined
by a start width and the hidden width list. -/
def widthPairs (p : Nat) : List Nat → List (Nat × Nat)
  | [] => []
  | h :: t => (p, h) :: widthPairs h t

/-- The dimensions of a model: hidden `(in, out)` pairs and the output
layer's `(in, out)` pair. -/
def networkDims (m : Network) : List (Nat × Nat) × Nat × Nat :=
  (m.hidden_layers.map (fun l => (l.in_features, l.out_features)),
    m.output.in_features, m.output.out_features)

/-- The dimensions determined by the three shape fields alone. -/
def buildDims (input_size output_size : Nat) (hs : List Nat) :
    List (Nat × Nat) × Nat × Nat :=
  (widthPairs input_size hs, lastWidth input_size hs, output_size)

/-- The width entering hidden layer `k`: `input_size` for `k = 0`,
`hidden_layers[k-1]` afterwards. -/
def prevWidth (input_size : Nat) (hs : List Nat) (k : Nat) : Nat :=
  if k = 0 then input_size else hs.getD (k - 1) 0

end FcModel

namespace FcModel

@[simp] theorem lookupBy_nil {α β : Type} [DecidableEq α] (k : α) :
    lookupBy k ([] : List (α × β)) = none := rfl

@[simp] theorem lookupBy_cons {α β : Type} [DecidableEq α] (k : α) (p : α × β)
    (ps : List (α × β)) :
    lookupBy k (p :: ps) = if k = p.1 then some p.2 else lookupBy k ps := rfl

theorem lookupBy_mem {α β : Type} [DecidableEq α] {k : α} {l : List (α × β)} {b : β}
    (h : lookupBy k l = some b) : (k, b) ∈ l := by
  induction l with
  | nil => simp at h
  | cons p ps ih =>
      rw [lookupBy_cons] at h
      by_cases hk : k = p.1
      · rw [if_pos hk] at h
        injection h with h
        subst hk
        cases p
        simp_all
      · rw [if_neg hk] at h
        exact List.mem_cons_of_mem _ (ih h)

theorem lookupBy_isSome_iff {α β : Type} [DecidableEq α] (k : α) (l : List (α × β)) :
    (lookupBy k l).isSome = true ↔ k ∈ l.map Prod.fst := by
  induction l with
  | nil => simp
  | cons p ps ih => by_cases hk : k = p.1 <;> simp [hk, ih]

theorem lookupBy_append_of_none {α β : Type} [DecidableEq α] {k : α}
    {l₁ l₂ : List (α × β)} (h : lookupBy k l₁ = none) :
    lookupBy k (l₁ ++ l₂) = lookupBy k l₂ := by
  induction l₁ with
  | nil => simp
  | cons p ps ih =>
      rw [lookupBy_cons] at h
      by_cases hk : k = p.1 <;> simp_all

theorem lookupBy_append_of_some {α β : Type} [DecidableEq α] {k : α}
    {l₁ l₂ : List (α × β)} {b : β} (h : lookupBy k l₁ = some b) :
    lookupBy k (l₁ ++ l₂) = some b := by
  induction l₁ with
  | nil => simp at h
  | cons p ps ih =>
      rw [lookupBy_cons] at h
      by_cases hk : k = p.1 <;> simp_all

theorem lookupBy_map_keys {α β γ : Type} [DecidableEq α] (f : α → β → γ) (k : α)
    (l : List (α × β)) :
    lookupBy k (l.map (fun p => (p.1, f p.1 p.2))) = (lookupBy k l).map (f k) := by
  induction l with
  | nil => simp
  | cons p ps ih => by_cases hk : k = p.1 <;> simp [hk, ih]

@[simp] theorem stateDictHidden_nil (i : Nat) : stateDictHidden i [] = [] := rfl

@[simp] theorem stateDictHidden_cons (i : Nat) (l : Linear) (ls : List Linear) :
    stateDictHidden i (l :: ls) =
      (Key.hidden i true, l.weight) :: (Key.hidden i false, l.bias) ::
        stateDictHidden (i + 1) ls := rfl

theorem lookupBy_stateDictHidden (ls : List Linear) :
    ∀ (i j : Nat) (w : Bool),
      lookupBy (Key.hidden (i + j) w) (stateDictHidden i ls)
        = ls[j]?.map (fun l => if w then l.weight else l.bias) := by
  induction ls with
  | nil => intro i j w; simp
  | cons l t ih =>
      intro i j w
      cases j with
      | zero => cases w <;> simp [Key.hidden.injEq]
      | succ j' =>
          rw [stateDictHidden_cons, lookupBy_cons,
            if_neg (by intro h; injection h with h1 h2; omega), lookupBy_cons,
            if_neg (by intro h; injection h with h1 h2; omega),
            show i + (j' + 1) = (i + 1) + j' by omega, ih]
          simp

theorem lookupBy_stateDictHidden_out (ls : List Linear) :
    ∀ (i : Nat) (w : Bool) (rest : List (Key × Tensor)),
      lookupBy (Key.out w) (stateDictHidden i ls ++ rest) = lookupBy (Key.out w) rest := by
  induction ls with
  | nil => intro i w rest; simp
  | cons l t ih => intro i w rest; simp [ih]

theorem slot_hidden (m : Network) (j : Nat) (w : Bool) :
    lookupBy (Key.hidden j w) m.state_dict
      = m.hidden_layers[j]?.map (fun l => if w then l.weight else l.bias) := by
  have h := lookupBy_stateDictHidden m.hidden_layers 0 j w
  rw [Nat.zero_add] at h
  unfold Network.state_dict
  cases hh : m.hidden_layers[j]? with
  | some l =>
      rw [hh] at h
      rw [lookupBy_append_of_some h]
      simp
  | none =>
      rw [hh] at h
      rw [lookupBy_append_of_none h]
      simp

theorem slot_out (m : Network) (w : Bool) :
    lookupBy (Key.out w) m.state_dict
      = some (if w then m.output.weight else m.output.bias) := by
  unfold Network.state_dict
  rw [lookupBy_stateDictHidden_out]
  cases w <;> simp

@[simp] theorem buildHidden_nil (prev j : Nat) (ini : Init) :
    buildHidden prev [] j ini = [] := rfl

@[simp] theorem buildHidden_cons (prev h j : Nat) (t : List Nat) (ini : Init) :
    buildHidden prev (h :: t) j ini =
      { in_features := prev, out_features := h,
        weight := { shape := [h, prev], data := ini j true },
        bias := { shape := [h], data := ini j false } } :: buildHidden h t (j + 1) ini := rfl

theorem buildHidden_length (hs : List Nat) :
    ∀ (prev j : Nat) (ini : Init), (buildHidden prev hs j ini).length = hs.length := by
  induction hs with
  | nil => intros; rfl
  | cons h t ih => intro prev j ini; simp [ih]

theorem buildHidden_out_features (hs : List Nat) :
    ∀ (prev j : Nat) (ini : Init),
      (buildHidden prev hs j ini).map Linear.out_features = hs := by
  induction hs with
  | nil => intros; rfl
  | cons h t ih => intro prev j ini; simp [ih]

theorem buildHidden_getElem? (hs : List Nat) :
    ∀ (prev j k : Nat) (ini : Init),
      (buildHidden prev hs j ini)[k]? =
        if k < hs.length then
          some { in_features := prevWidth prev hs k, out_features := hs.getD k 0,
                 weight := { shape := [hs.getD k 0, prevWidth prev hs k],
                             data := ini (j + k) true },
                 bias := { shape := [hs.getD k 0], data := ini (j + k) false } }
        else none := by
  induction hs with
  | nil => intros; simp
  | cons h t ih =>
      intro prev j k ini
      cases k with
      | zero => simp [prevWidth]
      | succ k' =>
          have h1 : prevWidth prev (h :: t) (k' + 1) = prevWidth h t k' := by
            cases k' <;> simp [prevWidth]
          have h2 : j + 1 + k' = j + (k' + 1) := by omega
          rw [buildHidden_cons, List.getElem?_cons_succ, ih h (j + 1) k' ini, h1, h2]
          simp [Nat.succ_lt_succ_iff]

end FcModel

deriving instance DecidableEq for Except

namespace FcModel

@[simp] theorem loadHidden_nil (i : Nat) (sd : List (Key × Tensor)) :
    loadHidden i [] sd = ([], []) := rfl

@[simp] theorem loadHidden_cons (i : Nat) (l : Linear) (rest : List Linear)
    (sd : List (Key × Tensor)) :
    loadHidden i (l :: rest) sd =
      ((loadLinear (Key.hidden i true) (Key.hidden i false) l sd).1 ::
          (loadHidden (i + 1) rest sd).1,
        (loadLinear (Key.hidden i true) (Key.hidden i false) l sd).2 ++
          (loadHidden (i + 1) rest sd).2) := rfl

theorem loadTensor_copy {k : Key} {cur t : Tensor} {sd : List (Key × Tensor)}
    (hl : lookupBy k sd = some t) (hs : t.shape = cur.shape) :
    loadTensor k cur sd = (t, []) := by
  simp [loadTensor, hl, hs]

theorem loadTensor_mismatch {k : Key} {cur t : Tensor} {sd : List (Key × Tensor)}
    (hl : lookupBy k sd = some t) (hs : t.shape ≠ cur.shape) :
    loadTensor k cur sd = (cur, [sizeMismatchMsg k t.shape cur.shape]) := by
  simp [loadTensor, hl, hs]

theorem loadTensor_missing {k : Key} {cur : Tensor} {sd : List (Key × Tensor)}
    (hl : lookupBy k sd = none) :
    loadTensor k cur sd = (cur, [missingKeyMsg k]) := by
  simp [loadTensor, hl]

theorem loadTensor_errs_nil_iff {k : Key} {cur : Tensor} {sd : List (Key × Tensor)} :
    (loadTensor k cur sd).2 = [] ↔ ∃ t, lookupBy k sd = some t ∧ t.shape = cur.shape := by
  cases hl : lookupBy k sd with
  | none => simp [loadTensor_missing hl, hl]
  | some t =>
      by_cases hs : t.shape = cur.shape
      · simp [loadTensor_copy hl hs, hl, hs]
      · simp [loadTensor_mismatch hl hs, hl, hs]

theorem loadTensor_keep {k : Key} {cur : Tensor} {sd : List (Key × Tensor)}
    (h : ∀ t, lookupBy k sd = some t → t.shape ≠ cur.shape) :
    (loadTensor k cur sd).1 = cur := by
  cases hl : lookupBy k sd with
  | none => simp [loadTensor_missing hl]
  | some t => simp [loadTensor_mismatch hl (h t hl)]

theorem sdh_load (ls : List Linear) :
    ∀ (i : Nat) (sd : List (Key × Tensor)),
      stateDictHidden i (loadHidden i ls sd).1 =
        (stateDictHidden i ls).map (fun p => (p.1, (loadTensor p.1 p.2 sd).1)) := by
  induction ls with
  | nil => intros; simp
  | cons l t ih => intro i sd; simp [loadLinear, ih]

theorem load_state_dict_slots (m : Network) (sd : List (Key × Tensor)) :
    ((m.load_state_dict sd).1).state_dict =
      m.state_dict.map (fun p => (p.1, (loadTensor p.1 p.2 sd).1)) := by
  unfold Network.load_state_dict Network.state_dict
  simp [sdh_load, loadLinear]

theorem loadHidden_errs (ls : List Linear) :
    ∀ (i : Nat) (sd : List (Key × Tensor)),
      (loadHidden i ls sd).2 =
        ((stateDictHidden i ls).map (fun p => (loadTensor p.1 p.2 sd).2)).flatten := by
  induction ls with
  | nil => intros; simp
  | cons l t ih => intro i sd; simp [loadLinear, ih, List.append_assoc]

theorem load_state_dict_errs (m : Network) (sd : List (Key × Tensor)) :
    (m.load_state_dict sd).2 =
      unexpectedKeyErrs m sd ++
        (m.state_dict.map (fun p => (loadTensor p.1 p.2 sd).2)).flatten := by
  unfold Network.load_state_dict Network.state_dict
  simp [loadHidden_errs, loadLinear, List.append_assoc]

theorem unexpectedKeyErrs_nil_iff (m : Network) (sd : List (Key × Tensor)) :
    unexpectedKeyErrs m sd = [] ↔ ∀ k ∈ sd.map Prod.fst, k ∈ modelKeys m := by
  simp only [unexpectedKeyErrs, List.filterMap_eq_nil_iff]
  constructor
  · intro h k hk
    have hi := h k hk
    by_cases hm : k ∈ modelKeys m
    · exact hm
    · simp [hm] at hi
  · intro h k hk
    simp [h k hk]

theorem load_errs_nil_iff (m : Network) (sd : List (Key × Tensor)) :
    (m.load_state_dict sd).2 = [] ↔
      unexpectedKeyErrs m sd = [] ∧
        ∀ p ∈ m.state_dict, (loadTensor p.1 p.2 sd).2 = [] := by
  rw [load_state_dict_errs, List.append_eq_nil, List.flatten_eq_nil_iff]
  constructor
  · rintro ⟨h1, h2⟩
    refine ⟨h1, fun p hp => ?_⟩
    exact h2 _ (List.mem_map_of_mem _ hp)
  · rintro ⟨h1, h2⟩
    refine ⟨h1, fun l hl => ?_⟩
    obtain ⟨p, hp, rfl⟩ := List.mem_map.mp hl
    exact h2 p hp

theorem loadHidden_dims (ls : List Linear) :
    ∀ (i : Nat) (sd : List (Key × Tensor)),
      ((loadHidden i ls sd).1).map (fun l => (l.in_features, l.out_features)) =
        ls.map (fun l => (l.in_features, l.out_features)) := by
  induction ls with
  | nil => intros; simp
  | cons l t ih => intro i sd; simp [loadLinear, ih]

theorem load_state_dict_dims (m : Network) (sd : List (Key × Tensor)) :
    networkDims ((m.load_state_dict sd).1) = networkDims m := by
  unfold Network.load_state_dict networkDims
  simp [loadHidden_dims, loadLinear]

theorem buildHidden_dims (hs : List Nat) :
    ∀ (prev j : Nat) (ini : Init),
      (buildHidden prev hs j ini).map (fun l => (l.in_features, l.out_features)) =
        widthPairs prev hs := by
  induction hs with
  | nil => intros; rfl
  | cons h t ih => intro prev j ini; simp [widthPairs, ih]

theorem buildNetwork_dims (inp out : Nat) (hs : List Nat) (ini : Init) :
    networkDims (buildNetwork inp out hs ini) = buildDims inp out hs := by
  unfold networkDims buildNetwork buildDims
  simp [buildHidden_dims]

theorem sdh_keys_eq (ls : List Linear) :
    ∀ (ls' : List Linear) (i : Nat), ls.length = ls'.length →
      (stateDictHidden i ls).map Prod.fst = (stateDictHidden i ls').map Prod.fst := by
  induction ls with
  | nil =>
      intro ls' i h
      cases ls' with
      | nil => rfl
      | cons l' t' => simp at h
  | cons l t ih =>
      intro ls' i h
      cases ls' with
      | nil => simp at h
      | cons l' t' =>
          simp only [List.length_cons, Nat.add_right_cancel_iff] at h
          simp [ih t' (i + 1) h]

theorem modelKeys_buildNetwork_eq (inp1 out1 inp2 out2 : Nat) (hs : List Nat)
    (i1 i2 : Init) :
    modelKeys (buildNetwork inp1 out1 hs i1) = modelKeys (buildNetwork inp2 out2 hs i2) := by
  unfold modelKeys Network.state_dict buildNetwork
  simp only [List.map_append]
  have hlen : (buildHidden inp1 hs 0 i1).length = (buildHidden inp2 hs 0 i2).length := by
    rw [buildHidden_length, buildHidden_length]
  rw [sdh_keys_eq (buildHidden inp1 hs 0 i1) (buildHidden inp2 hs 0 i2) 0 hlen]
  rfl

theorem loadHidden_roundtrip (hs : List Nat) :
    ∀ (prev j i : Nat) (ia ib : Init) (sd : List (Key × Tensor)),
      (∀ (k : Nat) (w : Bool),
          lookupBy (Key.hidden (i + k) w) sd =
            ((buildHidden prev hs j ia)[k]?).map (fun l => if w then l.weight else l.bias)) →
      loadHidden i (buildHidden prev hs j ib) sd = (buildHidden prev hs j ia, []) := by
  induction hs with
  | nil => intros; simp
  | cons h t ih =>
      intro prev j i ia ib sd H
      have Hw := H 0 true
      have Hb := H 0 false
      rw [Nat.add_zero] at Hw Hb
      simp only [buildHidden_cons, List.getElem?_cons_zero, Option.map_some',
        if_true, Bool.false_eq_true, if_false] at Hw Hb
      have Hrec : ∀ (k : Nat) (w : Bool),
          lookupBy (Key.hidden ((i + 1) + k) w) sd =
            ((buildHidden h t (j + 1) ia)[k]?).map (fun l => if w then l.weight else l.bias) := by
        intro k w
        have hk := H (k + 1) w
        rw [show i + (k + 1) = (i + 1) + k by omega] at hk
        rw [hk, buildHidden_cons, List.getElem?_cons_succ]
      rw [buildHidden_cons, loadHidden_cons, ih h (j + 1) (i + 1) ia ib sd Hrec]
      have cw := loadTensor_copy Hw
        (show (⟨[h, prev], ia j true⟩ : Tensor).shape
          = (⟨[h, prev], ib j true⟩ : Tensor).shape from rfl)
      have cb := loadTensor_copy Hb
        (show (⟨[h], ia j false⟩ : Tensor).shape
          = (⟨[h], ib j false⟩ : Tensor).shape from rfl)
      simp [loadLinear, cw, cb]

theorem load_state_dict_of_parts (mB mA : Network)
    (hh : loadHidden 0 mB.hidden_layers mA.state_dict = (mA.hidden_layers, []))
    (ho : loadLinear (Key.out true) (Key.out false) mB.output mA.state_dict = (mA.output, []))
    (hu : unexpectedKeyErrs mB mA.state_dict = []) :
    mB.load_state_dict mA.state_dict = (mA, []) := by
  unfold Network.load_state_dict
  rw [hh, ho, hu]
  rfl

theorem load_state_dict_roundtrip (inp out : Nat) (hs : List Nat) (ia ib : Init) :
    (buildNetwork inp out hs ib).load_state_dict (buildNetwork inp out hs ia).state_dict
      = (buildNetwork inp out hs ia, []) := by
  have H : ∀ (k : Nat) (w : Bool),
      lookupBy (Key.hidden (0 + k) w) ((buildNetwork inp out hs ia).state_dict) =
        ((buildHidden inp hs 0 ia)[k]?).map (fun l => if w then l.weight else l.bias) := by
    intro k w
    rw [Nat.zero_add, slot_hidden]
    rfl
  have hh : loadHidden 0 (buildNetwork inp out hs ib).hidden_layers
        ((buildNetwork inp out hs ia).state_dict)
      = ((buildNetwork inp out hs ia).hidden_layers, []) :=
    loadHidden_roundtrip hs inp 0 0 ia ib _ H
  have hOutW : lookupBy (Key.out true) ((buildNetwork inp out hs ia).state_dict)
      = some ((buildNetwork inp out hs ia).output.weight) := by
    simp [slot_out]
  have hOutB : lookupBy (Key.out false) ((buildNetwork inp out hs ia).state_dict)
      = some ((buildNetwork inp out hs ia).output.bias) := by
    simp [slot_out]
  have cw := loadTensor_copy hOutW
    (show ((buildNetwork inp out hs ia).output.weight).shape =
      ((buildNetwork inp out hs ib).output.weight).shape from rfl)
  have cb := loadTensor_copy hOutB
    (show ((buildNetwork inp out hs ia).output.bias).shape =
      ((buildNetwork inp out hs ib).output.bias).shape from rfl)
  have ho : loadLinear (Key.out true) (Key.out false) (buildNetwork inp out hs ib).output
        ((buildNetwork inp out hs ia).state_dict)
      = ((buildNetwork inp out hs ia).output, []) := by
    unfold loadLinear
    rw [cw, cb]
    rfl
  have hu : unexpectedKeyErrs (buildNetwork inp out hs ib)
      ((buildNetwork inp out hs ia).state_dict) = [] := by
    rw [unexpectedKeyErrs_nil_iff]
    intro k hk
    rw [modelKeys_buildNetwork_eq inp out inp out hs ib ia]
    exact hk
  exact load_state_dict_of_parts _ _ hh ho hu

end FcModel

namespace FcModel

/-- The tensor a model currently stores at a given slot identifier. -/
def slot (m : Network) (k : Key) : Option Tensor := lookupBy k m.state_dict

theorem slot_load_eq (m : Network) (sd : List (Key × Tensor)) (k : Key) :
    slot ((m.load_state_dict sd).1) k
      = (slot m k).map (fun cur => (loadTensor k cur sd).1) := by
  unfold slot
  rw [load_state_dict_slots]
  exact lookupBy_map_keys (fun k cur => (loadTensor k cur sd).1) k m.state_dict

theorem loadTensor_init_errs {k : Key} {cur1 cur2 : Tensor} {sd : List (Key × Tensor)}
    (h : cur1.shape = cur2.shape) :
    (loadTensor k cur1 sd).2 = (loadTensor k cur2 sd).2 := by
  cases hl : lookupBy k sd with
  | none => rw [loadTensor_missing hl, loadTensor_missing hl]
  | some t =>
      by_cases ht : t.shape = cur1.shape
      · rw [loadTensor_copy hl ht, loadTensor_copy hl (h ▸ ht)]
      · rw [loadTensor_mismatch hl ht, loadTensor_mismatch hl (h ▸ ht), h]

theorem loadTensor_init_ok {k : Key} {cur1 cur2 : Tensor} {sd : List (Key × Tensor)}
    (h : cur1.shape = cur2.shape) (h2 : (loadTensor k cur1 sd).2 = []) :
    loadTensor k cur1 sd = loadTensor k cur2 sd := by
  cases hl : lookupBy k sd with
  | none => rw [loadTensor_missing hl] at h2; simp at h2
  | some t =>
      by_cases ht : t.shape = cur1.shape
      · rw [loadTensor_copy hl ht, loadTensor_copy hl (h ▸ ht)]
      · rw [loadTensor_mismatch hl ht] at h2; simp at h2

theorem loadHidden_init (hs : List Nat) :
    ∀ (prev j i : Nat) (i1 i2 : Init) (sd : List (Key × Tensor)),
      (loadHidden i (buildHidden prev hs j i1) sd).2
          = (loadHidden i (buildHidden prev hs j i2) sd).2
        ∧ ((loadHidden i (buildHidden prev hs j i1) sd).2 = [] →
            loadHidden i (buildHidden prev hs j i1) sd
              = loadHidden i (buildHidden prev hs j i2) sd) := by
  induction hs with
  | nil => intros; exact ⟨rfl, fun _ => rfl⟩
  | cons h t ih =>
      intro prev j i i1 i2 sd
      obtain ⟨ihe, iho⟩ := ih h (j + 1) (i + 1) i1 i2 sd
      have ew : (loadTensor (Key.hidden i true) (⟨[h, prev], i1 j true⟩ : Tensor) sd).2
          = (loadTensor (Key.hidden i true) (⟨[h, prev], i2 j true⟩ : Tensor) sd).2 :=
        loadTensor_init_errs rfl
      have eb : (loadTensor (Key.hidden i false) (⟨[h], i1 j false⟩ : Tensor) sd).2
          = (loadTensor (Key.hidden i false) (⟨[h], i2 j false⟩ : Tensor) sd).2 :=
        loadTensor_init_errs rfl
      constructor
      · simp [loadLinear, ew, eb, ihe]
      · intro hnil
        simp only [buildHidden_cons, loadHidden_cons, loadLinear, List.append_eq_nil] at hnil
        obtain ⟨⟨hw, hb⟩, hr⟩ := hnil
        have ow := loadTensor_init_ok
          (show (⟨[h, prev], i1 j true⟩ : Tensor).shape
            = (⟨[h, prev], i2 j true⟩ : Tensor).shape from rfl) hw
        have ob := loadTensor_init_ok
          (show (⟨[h], i1 j false⟩ : Tensor).shape
            = (⟨[h], i2 j false⟩ : Tensor).shape from rfl) hb
        simp [loadLinear, ow, ob, iho hr]

theorem load_state_dict_init (inp out : Nat) (hs : List Nat) (i1 i2 : Init)
    (sd : List (Key × Tensor)) :
    ((buildNetwork inp out hs i1).load_state_dict sd).2
        = ((buildNetwork inp out hs i2).load_state_dict sd).2
      ∧ (((buildNetwork inp out hs i1).load_state_dict sd).2 = [] →
          ((buildNetwork inp out hs i1).load_state_dict sd).1
            = ((buildNetwork inp out hs i2).load_state_dict sd).1) := by
  obtain ⟨he, ho⟩ := loadHidden_init hs inp 0 0 i1 i2 sd
  have he' : (loadHidden 0 (buildNetwork inp out hs i1).hidden_layers sd).2
      = (loadHidden 0 (buildNetwork inp out hs i2).hidden_layers sd).2 := he
  have eun : unexpectedKeyErrs (buildNetwork inp out hs i1) sd
      = unexpectedKeyErrs (buildNetwork inp out hs i2) sd := by
    unfold unexpectedKeyErrs
    rw [modelKeys_buildNetwork_eq inp out inp out hs i1 i2]
  have ew : (loadTensor (Key.out true) ((buildNetwork inp out hs i1).output.weight) sd).2
      = (loadTensor (Key.out true) ((buildNetwork inp out hs i2).output.weight) sd).2 :=
    loadTensor_init_errs rfl
  have eb : (loadTensor (Key.out false) ((buildNetwork inp out hs i1).output.bias) sd).2
      = (loadTensor (Key.out false) ((buildNetwork inp out hs i2).output.bias) sd).2 :=
    loadTensor_init_errs rfl
  constructor
  · unfold Network.load_state_dict
    rw [eun, he']
    simp [loadLinear, ew, eb]
  · intro hnil
    unfold Network.load_state_dict at hnil
    simp only [List.append_eq_nil] at hnil
    obtain ⟨⟨hu, hh⟩, hout⟩ := hnil
    simp only [loadLinear, List.append_eq_nil] at hout
    obtain ⟨how, hob⟩ := hout
    have ow := loadTensor_init_ok
      (show ((buildNetwork inp out hs i1).output.weight).shape
        = ((buildNetwork inp out hs i2).output.weight).shape from rfl) how
    have ob := loadTensor_init_ok
      (show ((buildNetwork inp out hs i1).output.bias).shape
        = ((buildNetwork inp out hs i2).output.bias).shape from rfl) hob
    have hh' : loadHidden 0 (buildNetwork inp out hs i1).hidden_layers sd
        = loadHidden 0 (buildNetwork inp out hs i2).hidden_layers sd := ho hh
    unfold Network.load_state_dict
    rw [hh']
    simp [loadLinear, ow, ob]
    exact ⟨rfl, rfl⟩

/-- A concrete initialisation: every slot starts as a single zero cell. -/
def iZ : Init := fun _ _ => [0]

/-- A concrete initialisation filling the slots of a network with input
width 2, one hidden layer of width 2 and output width 1 with ones. -/
def iA : Init := fun i w =>
  match i, w with
  | 0, true => [1, 1, 1, 1]
  | 0, false => [1, 1]
  | _, true => [1, 1]
  | _, false => [1]

/-- A concrete initialisation filling the slots of a network with input
width 2, one hidden layer of width 1 and output width 1 with zeros. -/
def iB : Init := fun i w =>
  match i, w with
  | 0, true => [0, 0]
  | _, true => [0]
  | _, false => [0]

end FcModel

namespace FcModel

theorem mismatch_mem_errs (m : Network) (sd : List (Key × Tensor)) (k : Key)
    (cur t : Tensor) (h1 : slot m k = some cur) (h2 : lookupBy k sd = some t)
    (h3 : t.shape ≠ cur.shape) :
    sizeMismatchMsg k t.shape cur.shape ∈ (m.load_state_dict sd).2 := by
  rw [load_state_dict_errs]
  refine List.mem_append.mpr (Or.inr ?_)
  rw [List.mem_flatten]
  refine ⟨(loadTensor k cur sd).2, List.mem_map_of_mem _ (lookupBy_mem h1), ?_⟩
  rw [loadTensor_mismatch h2 h3]
  simp

theorem bias_slot_buildNetwork (inp out : Nat) (hs : List Nat) (ini : Init) (k : Nat)
    (hk : k < hs.length) :
    lookupBy (Key.hidden k false) (buildNetwork inp out hs ini).state_dict
      = some ⟨[hs.getD k 0], ini k false⟩ := by
  rw [slot_hidden,
    show (buildNetwork inp out hs ini).hidden_layers = buildHidden inp hs 0 ini from rfl,
    buildHidden_getElem?, if_pos hk]
  simp

theorem load_errs_nil_widths_eq (inA outA : Nat) (hsA : List Nat) (ia : Init)
    (inB outB : Nat) (hsB : List Nat) (ib : Init)
    (h : ((buildNetwork inB outB hsB ib).load_state_dict
        (buildNetwork inA outA hsA ia).state_dict).2 = []) :
    hsA = hsB := by
  obtain ⟨hu, hslots⟩ := (load_errs_nil_iff _ _).mp h
  have step1 : ∀ k, k < hsB.length → k < hsA.length ∧ hsA.getD k 0 = hsB.getD k 0 := by
    intro k hk
    have hbB := bias_slot_buildNetwork inB outB hsB ib k hk
    have hmem : (Key.hidden k false, (⟨[hsB.getD k 0], ib k false⟩ : Tensor))
        ∈ (buildNetwork inB outB hsB ib).state_dict := lookupBy_mem hbB
    have hnil := hslots _ hmem
    rw [loadTensor_errs_nil_iff] at hnil
    obtain ⟨t, hlA, hts⟩ := hnil
    rw [slot_hidden,
      show (buildNetwork inA outA hsA ia).hidden_layers = buildHidden inA hsA 0 ia from rfl,
      buildHidden_getElem?] at hlA
    by_cases hkA : k < hsA.length
    · rw [if_pos hkA] at hlA
      simp only [Option.map_some', Bool.false_eq_true, if_false, Option.some.injEq] at hlA
      refine ⟨hkA, ?_⟩
      have hshape : t.shape = [hsA.getD k 0] := by rw [← hlA]
      rw [hshape] at hts
      simpa using hts
    · rw [if_neg hkA] at hlA
      simp at hlA
  have step2 : hsA.length ≤ hsB.length := by
    by_contra hc
    push_neg at hc
    have hbA := bias_slot_buildNetwork inA outA hsA ia hsB.length hc
    have hmemA : Key.hidden hsB.length false
        ∈ ((buildNetwork inA outA hsA ia).state_dict).map Prod.fst :=
      List.mem_map_of_mem Prod.fst (lookupBy_mem hbA)
    have hinB := (unexpectedKeyErrs_nil_iff _ _).mp hu _ hmemA
    have hsome : (lookupBy (Key.hidden hsB.length false)
        (buildNetwork inB outB hsB ib).state_dict).isSome = true :=
      (lookupBy_isSome_iff _ _).mpr hinB
    rw [slot_hidden,
      show (buildNetwork inB outB hsB ib).hidden_layers = buildHidden inB hsB 0 ib from rfl,
      buildHidden_getElem?, if_neg (by omega)] at hsome
    simp at hsome
  have hge : hsB.length ≤ hsA.length := by
    by_contra hc
    push_neg at hc
    exact absurd (step1 hsA.length hc).1 (lt_irrefl _)
  have hlen : hsA.length = hsB.length := Nat.le_antisymm step2 hge
  apply List.ext_getElem hlen
  intro n h1 h2
  have hn := (step1 n h2).2
  rwa [List.getD_eq_getElem hsA 0 h1, List.getD_eq_getElem hsB 0 h2] at hn

end FcModel

namespace FcModel

/-- C1 (counterexample): the round trip `load(save(model)) = model` fails
for a valid positive configuration whose input and output widths are not
the writer's hardcoded `784` and `10`: saving a `Network(1, 1, [1])`
records `input_size = 784` and `output_size = 10`, so loading rebuilds a
different architecture and the strict load raises instead of returning
the original model. -/
theorem roundtrip_not_universal :
    load_checkpoint (checkpoint (buildNetwork 1 1 [1] iZ)) iZ
      ≠ Except.ok (buildNetwork 1 1 [1] iZ) := by decide

/-- C1 (amended): for every model built with the notebook's input width
`784` and output width `10`, any positive hidden widths and arbitrary
parameter values, loading the checkpoint produced by saving that model
returns a model whose layer widths and stored weight and bias values are
exactly (bit-for-bit) the original's: `load(save(model)) = model`.  The
reconstruction's own fresh initialisation `ib` is arbitrary. -/
theorem roundtrip_at_notebook_config (hs : List Nat) (ia ib : Init)
    (hpos : ∀ h ∈ hs, 0 < h) :
    load_checkpoint (checkpoint (buildNetwork 784 10 hs ia)) ib
      = Except.ok (buildNetwork 784 10 hs ia) := by
  have hw : (checkpoint (buildNetwork 784 10 hs ia)).hidden_layers = hs := by
    show (buildNetwork 784 10 hs ia).hidden_layers.map Linear.out_features = hs
    exact buildHidden_out_features hs 784 0 ia
  unfold load_checkpoint freshModel
  rw [show (checkpoint (buildNetwork 784 10 hs ia)).input_size = 784 from rfl,
    show (checkpoint (buildNetwork 784 10 hs ia)).output_size = 10 from rfl, hw,
    show (checkpoint (buildNetwork 784 10 hs ia)).state_dict
      = (buildNetwork 784 10 hs ia).state_dict from rfl,
    load_state_dict_roundtrip 784 10 hs ia ib]
  rfl

/-- C1 (witness): the round trip at the concrete configuration
`input 784, output 10, hidden [2]` with ones saved over a zero-initialised
fresh model. -/
theorem roundtrip_at_notebook_config_witness :
    (∀ h ∈ [2], 0 < h) ∧
      load_checkpoint (checkpoint (buildNetwork 784 10 [2] iA)) iB
        = Except.ok (buildNetwork 784 10 [2] iA) :=
  ⟨by decide, roundtrip_at_notebook_config [2] iA iB (by decide)⟩

/-- C8: the checkpoint writer cell reads the model and assigns nothing to
it: the model after the cell is the model before it, so every stored
parameter value and every layer width is preserved. -/
theorem save_frame (m : Network) :
    (saveCell m).2 = m ∧ ((saveCell m).2).state_dict = m.state_dict ∧
      hiddenWidths (saveCell m).2 = hiddenWidths m :=
  ⟨rfl, rfl, rfl⟩

set_option maxRecDepth 10000

/-- C9 (counterexample): the writer hardcodes `input_size = 784` and
`output_size = 10`, so saving a current model whose input width is `2`
produces a checkpoint whose reload raises Shape Mismatch: the stored
first hidden weight has shape `[1, 2]` while the freshly rebuilt model
expects `[1, 784]`. -/
theorem writer_checkpoint_load_fails_other_widths :
    loadCheckpointErrs (checkpoint (buildNetwork 2 10 [1] iZ)) iZ ≠ [] ∧
      sizeMismatchMsg (Key.hidden 0 true) [1, 2] [1, 784]
        ∈ loadCheckpointErrs (checkpoint (buildNetwork 2 10 [1] iZ)) iZ := by
  decide

/-- C9 (amended): the writer reads `hidden_layers` from each hidden
layer's actual output width of the model at the moment of saving, so for
whatever hidden widths and parameter values the current model has —
provided its input and output widths are the writer's hardcoded `784`
and `10`, as for every model of the notebook — loading the writer's
unmodified checkpoint raises no failure at all. -/
theorem writer_checkpoint_load_no_mismatch (hs : List Nat) (ia ib : Init) :
    loadCheckpointErrs (checkpoint (buildNetwork 784 10 hs ia)) ib = [] := by
  have hw : (checkpoint (buildNetwork 784 10 hs ia)).hidden_layers = hs := by
    show (buildNetwork 784 10 hs ia).hidden_layers.map Linear.out_features = hs
    exact buildHidden_out_features hs 784 0 ia
  unfold loadCheckpointErrs freshModel
  rw [show (checkpoint (buildNetwork 784 10 hs ia)).input_size = 784 from rfl,
    show (checkpoint (buildNetwork 784 10 hs ia)).output_size = 10 from rfl, hw,
    show (checkpoint (buildNetwork 784 10 hs ia)).state_dict
      = (buildNetwork 784 10 hs ia).state_dict from rfl,
    load_state_dict_roundtrip 784 10 hs ia ib]

/-- C10: the result of `load_checkpoint` — the returned model on success
as well as the failure report — depends only on the checkpoint's
contents, not on the fresh model's random initialisation: on success the
stored values overwrite every freshly initialised parameter slot. -/
theorem load_result_init_independent (cp : Checkpoint) (i1 i2 : Init) :
    load_checkpoint cp i1 = load_checkpoint cp i2 := by
  obtain ⟨he, ho⟩ :=
    load_state_dict_init cp.input_size cp.output_size cp.hidden_layers i1 i2 cp.state_dict
  unfold load_checkpoint freshModel
  by_cases hc : ((buildNetwork cp.input_size cp.output_size cp.hidden_layers i1).load_state_dict
      cp.state_dict).2 = []
  · rw [if_pos hc, if_pos (by rw [← he]; exact hc), ho hc]
  · rw [if_neg hc, if_neg (by rw [← he]; exact hc), he]

end FcModel

namespace FcModel

/-- C2 (counterexample): loading the state dict of a `Network(2, 1, [2])`
into a `Network(2, 1, [1])` raises Shape Mismatch, yet does not leave
every parameter of the target unchanged: the `output.bias` slot has
shape `[1]` on both sides, so its stored value (a one) overwrites the
target's value (a zero) before the error is raised. -/
theorem load_mismatch_mutates_matching_slot :
    ((buildNetwork 2 1 [1] iB).load_state_dict (buildNetwork 2 1 [2] iA).state_dict).1
      ≠ buildNetwork 2 1 [1] iB := by decide

/-- C2 (amended): loading a saved state dict into a target model built
with different `hidden_layers` values always raises the Shape Mismatch
failure, and every target slot whose dimensions disagree with the stored
tensor (or that has no stored tensor) is left unchanged; but a target
slot whose dimensions coincide with the stored tensor — such as
`output.bias` when the output width matches — is overwritten with the
stored value before the error is raised, so the target is in general
partially mutated. -/
theorem load_mismatch_raises_and_preserves_mismatched
    (inA outA : Nat) (hsA : List Nat) (ia : Init)
    (inB outB : Nat) (hsB : List Nat) (ib : Init) (hne : hsA ≠ hsB) :
    ((buildNetwork inB outB hsB ib).load_state_dict
        (buildNetwork inA outA hsA ia).state_dict).2 ≠ []
    ∧ (∀ (k : Key) (cur : Tensor), slot (buildNetwork inB outB hsB ib) k = some cur →
        (∀ t, lookupBy k (buildNetwork inA outA hsA ia).state_dict = some t →
          t.shape ≠ cur.shape) →
        slot (((buildNetwork inB outB hsB ib).load_state_dict
          (buildNetwork inA outA hsA ia).state_dict).1) k = some cur)
    ∧ (∀ (k : Key) (cur t : Tensor), slot (buildNetwork inB outB hsB ib) k = some cur →
        lookupBy k (buildNetwork inA outA hsA ia).state_dict = some t →
        t.shape = cur.shape →
        slot (((buildNetwork inB outB hsB ib).load_state_dict
          (buildNetwork inA outA hsA ia).state_dict).1) k = some t) := by
  refine ⟨?_, ?_, ?_⟩
  · intro h
    exact hne (load_errs_nil_widths_eq _ _ _ _ _ _ _ _ h)
  · intro k cur hcur hmis
    rw [slot_load_eq, hcur]
    simp [loadTensor_keep hmis]
  · intro k cur t hcur hl hsh
    rw [slot_load_eq, hcur]
    simp [loadTensor_copy hl hsh]

/-- C2 (witness): concrete instance of the amended claim: loading the
`[2]`-hidden state dict into a `[1]`-hidden target raises. -/
theorem load_mismatch_raises_witness :
    ((buildNetwork 2 1 [1] iB).load_state_dict
      (buildNetwork 2 1 [2] iA).state_dict).2 ≠ [] :=
  (load_mismatch_raises_and_preserves_mismatched 2 1 [2] iA 2 1 [1] iB (by decide)).1

/-- C3: the loader (1) builds a model whose dimensions are exactly those
determined by the record's `input_size`, `output_size` and
`hidden_layers` fields alone; (2) on success, every parameter slot of
the returned model holds exactly the stored tensor matched to it by
identifier; (3) it fails whenever any stored tensor's dimensions
disagree with the corresponding slot of the freshly built model. -/
theorem loader_algorithm (cp : Checkpoint) (ini : Init) :
    (∀ m', load_checkpoint cp ini = Except.ok m' →
        networkDims m' = buildDims cp.input_size cp.output_size cp.hidden_layers ∧
        ∀ (k : Key) (cur : Tensor), slot (freshModel cp ini) k = some cur →
          ∃ t, lookupBy k cp.state_dict = some t ∧ slot m' k = some t)
    ∧ (∀ (k : Key) (cur t : Tensor), slot (freshModel cp ini) k = some cur →
        lookupBy k cp.state_dict = some t → t.shape ≠ cur.shape →
        (load_checkpoint cp ini).isOk = false) := by
  constructor
  · intro m' hok
    have hsplit : ((freshModel cp ini).load_state_dict cp.state_dict).2 = [] ∧
        m' = ((freshModel cp ini).load_state_dict cp.state_dict).1 := by
      unfold load_checkpoint at hok
      by_cases hc : ((freshModel cp ini).load_state_dict cp.state_dict).2 = []
      · rw [if_pos hc] at hok
        injection hok with h
        exact ⟨hc, h.symm⟩
      · rw [if_neg hc] at hok
        exact Except.noConfusion hok
    obtain ⟨hnil, hm⟩ := hsplit
    constructor
    · rw [hm, load_state_dict_dims]
      exact buildNetwork_dims cp.input_size cp.output_size cp.hidden_layers ini
    · intro k cur hcur
      have hmem := lookupBy_mem hcur
      have hslotnil := ((load_errs_nil_iff _ _).mp hnil).2 _ hmem
      rw [loadTensor_errs_nil_iff] at hslotnil
      obtain ⟨t, hl, hsh⟩ := hslotnil
      refine ⟨t, hl, ?_⟩
      rw [hm, slot_load_eq, hcur]
      simp [loadTensor_copy hl hsh]
  · intro k cur t hcur hl hsh
    have hmemErr := mismatch_mem_errs (freshModel cp ini) cp.state_dict k cur t hcur hl hsh
    unfold load_checkpoint
    rw [if_neg (List.ne_nil_of_mem hmemErr)]
    rfl

/-- C3 (witness): the loader run on the checkpoint of a
`Network(784, 10, [1])` succeeds and returns a model with exactly the
dimensions determined by the record's three shape fields. -/
theorem loader_algorithm_witness :
    networkDims (buildNetwork 784 10 [1] iZ) = buildDims 784 10 [1] :=
  ((loader_algorithm (checkpoint (buildNetwork 784 10 [1] iZ)) iZ).1
    (buildNetwork 784 10 [1] iZ) (by decide)).1

/-- C4: whenever a stored tensor's dimensions disagree with the
corresponding freshly built slot, the loader returns the failure to the
caller (it is never swallowed), the report contains for that slot the
message naming the stored (expected-from-checkpoint) dimensions and the
current model's dimensions, and the mismatched slot itself is left with
its own tensor — never padded or truncated to fit. -/
theorem shape_mismatch_surfaced (cp : Checkpoint) (ini : Init) (k : Key) (cur t : Tensor)
    (h1 : slot (freshModel cp ini) k = some cur)
    (h2 : lookupBy k cp.state_dict = some t)
    (h3 : t.shape ≠ cur.shape) :
    load_checkpoint cp ini
        = Except.error ((freshModel cp ini).load_state_dict cp.state_dict).2
    ∧ sizeMismatchMsg k t.shape cur.shape
        ∈ ((freshModel cp ini).load_state_dict cp.state_dict).2
    ∧ slot (((freshModel cp ini).load_state_dict cp.state_dict).1) k = some cur := by
  have hmemErr := mismatch_mem_errs (freshModel cp ini) cp.state_dict k cur t h1 h2 h3
  refine ⟨?_, hmemErr, ?_⟩
  · unfold load_checkpoint
    rw [if_neg (List.ne_nil_of_mem hmemErr)]
  · rw [slot_load_eq, h1]
    have hkeep : (loadTensor k cur cp.state_dict).1 = cur :=
      loadTensor_keep (fun t' ht' => by
        rw [h2] at ht'
        injection ht' with h
        rw [← h]
        exact h3)
    simp [hkeep]

/-- C4 (witness): a concrete mismatched load (saved input width 1,
reloaded at the hardcoded 784) whose report contains the message with
both dimension lists. -/
theorem shape_mismatch_surfaced_witness :
    sizeMismatchMsg (Key.hidden 0 true) [1, 1] [1, 784]
      ∈ ((freshModel (checkpoint (buildNetwork 1 2 [1] iZ)) iZ).load_state_dict
          (checkpoint (buildNetwork 1 2 [1] iZ)).state_dict).2 :=
  (shape_mismatch_surfaced (checkpoint (buildNetwork 1 2 [1] iZ)) iZ
    (Key.hidden 0 true) ⟨[1, 784], [0]⟩ ⟨[1, 1], [0]⟩
    (by decide) (by decide) (by decide)).2.1

end FcModel

namespace FcModel

/-- C5 (counterexample): loading the state dict saved from a
`Network(784, 10, [512, 256, 128])` into a `Network(784, 10, [400, 200, 100])`
does not report six mismatched tensors: `output.weight` (stored
`[10, 128]` against current `[10, 100]`) mismatches as well, so the
report has seven entries, exactly as the traceback recorded in the
source shows. -/
theorem scenario_mismatch_count_not_six :
    ((buildNetwork 784 10 [400, 200, 100] iZ).load_state_dict
        (buildNetwork 784 10 [512, 256, 128] iZ).state_dict).2.length ≠ 6 := by
  decide

/-- C5 (amended): for arbitrary saved parameter values and arbitrary fresh
initialisation, the scenario load fails and reports exactly seven
mismatched tensors: the three hidden weights, the three hidden biases,
and the output weight whose input width differs; `output.bias`
(shape `[10]` on both sides) is the only slot that matches. -/
theorem scenario_mismatch_seven (ia ib : Init) :
    ((buildNetwork 784 10 [400, 200, 100] ib).load_state_dict
        (buildNetwork 784 10 [512, 256, 128] ia).state_dict).2
      = [sizeMismatchMsg (Key.hidden 0 true) [512, 784] [400, 784],
         sizeMismatchMsg (Key.hidden 0 false) [512] [400],
         sizeMismatchMsg (Key.hidden 1 true) [256, 512] [200, 400],
         sizeMismatchMsg (Key.hidden 1 false) [256] [200],
         sizeMismatchMsg (Key.hidden 2 true) [128, 256] [100, 200],
         sizeMismatchMsg (Key.hidden 2 false) [128] [100],
         sizeMismatchMsg (Key.out true) [10, 128] [10, 100]] := rfl

/-- The checkpoint the writer cell produces for a model with the
notebook's input and output widths and the given hidden widths. -/
def savedRecord (hs : List Nat) (ini : Init) : Checkpoint :=
  checkpoint (buildNetwork 784 10 hs ini)

theorem savedRecord_hidden_layers (hs : List Nat) (ini : Init) :
    (savedRecord hs ini).hidden_layers = hs :=
  buildHidden_out_features hs 784 0 ini

/-- C6: in every record the writer produces, the stored shapes are
consistent with the three shape fields: hidden layer `k`'s weight has
shape `(hidden_layers[k], previous_width)` with `previous_width` equal
to `input_size` for `k = 0` and `hidden_layers[k-1]` afterwards, its
bias has shape `(hidden_layers[k])`, and after the last hidden layer the
chain ends at `output_size`: the output slot's weight has shape
`(output_size, last hidden width)`. -/
theorem checkpoint_shape_invariant (hs : List Nat) (ini : Init) (k : Nat) (t : Tensor) :
    (lookupBy (Key.hidden k true) (savedRecord hs ini).state_dict = some t →
      t.shape = [(savedRecord hs ini).hidden_layers.getD k 0,
        prevWidth (savedRecord hs ini).input_size (savedRecord hs ini).hidden_layers k])
    ∧ (lookupBy (Key.hidden k false) (savedRecord hs ini).state_dict = some t →
      t.shape = [(savedRecord hs ini).hidden_layers.getD k 0])
    ∧ (lookupBy (Key.out true) (savedRecord hs ini).state_dict = some t →
      t.shape = [(savedRecord hs ini).output_size,
        lastWidth (savedRecord hs ini).input_size (savedRecord hs ini).hidden_layers]) := by
  have hsd : (savedRecord hs ini).state_dict = (buildNetwork 784 10 hs ini).state_dict := rfl
  have hin : (savedRecord hs ini).input_size = 784 := rfl
  have hout : (savedRecord hs ini).output_size = 10 := rfl
  have hhl := savedRecord_hidden_layers hs ini
  refine ⟨?_, ?_, ?_⟩
  · intro h
    rw [hsd, slot_hidden,
      show (buildNetwork 784 10 hs ini).hidden_layers = buildHidden 784 hs 0 ini from rfl,
      buildHidden_getElem?] at h
    by_cases hk : k < hs.length
    · rw [if_pos hk] at h
      simp only [Option.map_some', if_true, Option.some.injEq] at h
      rw [hin, hhl, ← h]
    · rw [if_neg hk] at h
      simp at h
  · intro h
    rw [hsd, slot_hidden,
      show (buildNetwork 784 10 hs ini).hidden_layers = buildHidden 784 hs 0 ini from rfl,
      buildHidden_getElem?] at h
    by_cases hk : k < hs.length
    · rw [if_pos hk] at h
      simp only [Option.map_some', Bool.false_eq_true, if_false, Option.some.injEq] at h
      rw [hhl, ← h]
    · rw [if_neg hk] at h
      simp at h
  · intro h
    rw [hsd, slot_out] at h
    simp only [if_true, Option.some.injEq] at h
    rw [hin, hout, hhl, ← h]
    rfl

/-- C6 (witness): the stored weight of hidden layer 1 in the checkpoint
of a `Network(784, 10, [2, 3])` has shape `(3, 2)`: its own width `3` by
the previous width `2`. -/
theorem checkpoint_shape_invariant_witness :
    (⟨[3, 2], [0]⟩ : Tensor).shape
      = [(savedRecord [2, 3] iZ).hidden_layers.getD 1 0,
         prevWidth (savedRecord [2, 3] iZ).input_size
           (savedRecord [2, 3] iZ).hidden_layers 1] :=
  (checkpoint_shape_invariant [2, 3] iZ 1 ⟨[3, 2], [0]⟩).1 (by decide)

theorem readNat_isSome {r : RawRecord} {k : String} {n : Nat}
    (h : readNat r k = some n) : (lookupBy k r).isSome = true := by
  unfold readNat at h
  cases hl : lookupBy k r with
  | none => rw [hl] at h; simp at h
  | some e => rfl

theorem readWidths_isSome {r : RawRecord} {k : String} {ns : List Nat}
    (h : readWidths r k = some ns) : (lookupBy k r).isSome = true := by
  unfold readWidths at h
  cases hl : lookupBy k r with
  | none => rw [hl] at h; simp at h
  | some e => rfl

theorem readDict_isSome {r : RawRecord} {k : String} {sd : List (Key × Tensor)}
    (h : readDict r k = some sd) : (lookupBy k r).isSome = true := by
  unfold readDict at h
  cases hl : lookupBy k r with
  | none => rw [hl] at h; simp at h
  | some e => rfl

/-- C7: every raw record the loader accepts (does not fail with a key
error on) contains all four fields `input_size`, `output_size`,
`hidden_layers` and `state_dict`; and the loader consumes exactly these
four fields: any record agreeing with it on the four fields — whatever
else it contains and in whatever order — loads to the identical result. -/
theorem loader_consumes_four_fields (r r' : RawRecord) (ini : Init)
    (hok : (load_checkpoint_file r ini).isSome = true) :
    ((lookupBy "input_size" r).isSome = true ∧ (lookupBy "output_size" r).isSome = true ∧
      (lookupBy "hidden_layers" r).isSome = true ∧ (lookupBy "state_dict" r).isSome = true)
    ∧ (readNat r' "input_size" = readNat r "input_size" →
        readNat r' "output_size" = readNat r "output_size" →
        readWidths r' "hidden_layers" = readWidths r "hidden_layers" →
        readDict r' "state_dict" = readDict r "state_dict" →
        load_checkpoint_file r' ini = load_checkpoint_file r ini) := by
  cases e1 : readNat r "input_size" with
  | none => exfalso; unfold load_checkpoint_file at hok; rw [e1] at hok; simp at hok
  | some i =>
  cases e2 : readNat r "output_size" with
  | none =>
      exfalso; unfold load_checkpoint_file at hok; rw [e1, e2] at hok; simp at hok
  | some o =>
  cases e3 : readWidths r "hidden_layers" with
  | none =>
      exfalso; unfold load_checkpoint_file at hok; rw [e1, e2, e3] at hok; simp at hok
  | some hs =>
  cases e4 : readDict r "state_dict" with
  | none =>
      exfalso; unfold load_checkpoint_file at hok; rw [e1, e2, e3, e4] at hok; simp at hok
  | some sd =>
  refine ⟨⟨readNat_isSome e1, readNat_isSome e2, readWidths_isSome e3, readDict_isSome e4⟩, ?_⟩
  intro f1 f2 f3 f4
  unfold load_checkpoint_file
  rw [f1, e1, f2, e2, f3, e3, f4, e4]

/-- A raw record holding the four fields plus an extra, unconsulted one. -/
def rec0 : RawRecord :=
  [("input_size", RecEntry.nat 784), ("output_size", RecEntry.nat 10),
   ("hidden_layers", RecEntry.widths [1]),
   ("state_dict", RecEntry.dict (buildNetwork 784 10 [1] iZ).state_dict),
   ("extra", RecEntry.nat 5)]

/-- The same four fields in another order with different extra content. -/
def rec1 : RawRecord :=
  [("irrelevant", RecEntry.widths [9, 9]),
   ("state_dict", RecEntry.dict (buildNetwork 784 10 [1] iZ).state_dict),
   ("hidden_layers", RecEntry.widths [1]), ("output_size", RecEntry.nat 10),
   ("input_size", RecEntry.nat 784)]

/-- C7 (witness): two records agreeing on the four fields — in different
order and with different extra entries — load identically. -/
theorem loader_consumes_four_fields_witness :
    load_checkpoint_file rec1 iZ = load_checkpoint_file rec0 iZ :=
  (loader_consumes_four_fields rec0 rec1 iZ (by decide)).2
    (by decide) (by decide) (by decide) (by decide)

end FcModel
